import Mathlib

/-!
Shallow embedding of `src/LCM2ROSControl.cpp` (valkyrie_translator), the
per-cycle translation and safety-clamping layer between an LCM joint-command
stream and the Valkyrie ros_control hardware interface.

Doubles are embedded as `ℚ` (exact field arithmetic, executable).  Maps
(`std::map<std::string, ...>`) are embedded as association lists; the
per-cycle iteration order over joint handles is the list order.  Constants
declared in the missing header (`DEFAULT_MIN_POSITION`, `DEFAULT_MAX_POSITION`,
`DEFAULT_MAX_EFFORT`, `FORCE_CONTROL_ALLOWABLE_POSITION_ERR_BOUND`,
`FORCE_CONTROL_MAX_CHANGE`) are kept symbolic as fields of `Params`.
-/

namespace Valkyrie

/-- The eleven-field per-joint command record (`joint_command` in the source):
targets `position, velocity, effort`, gains `k_q_p, k_q_i, k_qd_p, k_f_p`,
feed-forward terms `ff_qd, ff_qd_d, ff_f_d, ff_const`. -/
structure joint_command where
  position : ℚ
  velocity : ℚ
  effort : ℚ
  k_q_p : ℚ
  k_q_i : ℚ
  k_qd_p : ℚ
  k_f_p : ℚ
  ff_qd : ℚ
  ff_qd_d : ℚ
  ff_f_d : ℚ
  ff_const : ℚ
deriving DecidableEq, Repr

/-- Zero-initialized command, as written at joint registration
(`initRequest`, lines 106-117 / 145-156). -/
def zeroCommand : joint_command :=
  ⟨0, 0, 0, 0, 0, 0, 0, 0, 0, 0, 0⟩

/-- `joint_limits_interface::JointLimits`, restricted to the three fields the
source reads: `min_position`, `max_position`, `max_effort`. -/
structure JointLimits where
  min_position : ℚ
  max_position : ℚ
  max_effort : ℚ
deriving DecidableEq, Repr

/-- A default-constructed `joint_limits_interface::JointLimits`: the ROS
`joint_limits_interface` library value-initializes every numeric field
to `0.0`. -/
def defaultConstructedLimits : JointLimits := ⟨0, 0, 0⟩

/-- Fresh per-cycle hardware readings for one joint:
`getPosition()`, `getVelocity()`, `getEffort()`. -/
structure SensorSample where
  q : ℚ
  qd : ℚ
  f : ℚ
deriving DecidableEq, Repr

/-- Constants from the (not provided) `LCM2ROSControl.hpp` header, kept
symbolic: the default joint limits and the two force-control thresholds. -/
structure Params where
  DEFAULT_MIN_POSITION : ℚ
  DEFAULT_MAX_POSITION : ℚ
  DEFAULT_MAX_EFFORT : ℚ
  FORCE_CONTROL_ALLOWABLE_POSITION_ERR_BOUND : ℚ
  FORCE_CONTROL_MAX_CHANGE : ℚ
deriving DecidableEq, Repr

/-- Association-list lookup, embedding `std::map::find`. -/
def alookup {α : Type} : List (String × α) → String → Option α
  | [], _ => none
  | (k, v) :: rest, key => if k = key then some v else alookup rest key

/-- Association-list overwrite of an existing key, embedding assignment
through `std::map::operator[]` to a key known to be present. -/
def aset {α : Type} : List (String × α) → String → α → List (String × α)
  | [], _, _ => []
  | (k, v) :: rest, key, newv =>
      if k = key then (k, newv) :: rest else (k, v) :: aset rest key newv

/-- `std::map<std::string, joint_command>::operator[]`: return the entry when
present, otherwise insert a default-constructed (zero) entry and return it,
together with the possibly extended map. -/
def getOrInsert (m : List (String × joint_command)) (key : String) :
    joint_command × List (String × joint_command) :=
  match alookup m key with
  | some c => (c, m)
  | none => (zeroCommand, m ++ [(key, zeroCommand)])

/-- `clamp(x, lower, upper) = std::max(lower, std::min(upper, x))`
(source lines 20-22). -/
def clamp (x lower upper : ℚ) : ℚ := max lower (min upper x)

/-- Raw effort command for an effort-controlled joint
(source lines 308-316). -/
def rawEffort (command : joint_command) (s : SensorSample) (dt : ℚ) : ℚ :=
  command.k_q_p * (command.position - s.q) +
  command.k_q_i * (command.position - s.q) * dt +
  command.k_qd_p * (command.velocity - s.qd) +
  command.k_f_p * (command.effort - s.f) +
  command.ff_qd * s.qd +
  command.ff_qd_d * command.velocity +
  command.ff_f_d * command.effort +
  command.ff_const

/-- The raw-effort control law written out from the specification text
(spec section 4.3), to be compared with `rawEffort` from the source. -/
def rawEffort_spec (command : joint_command) (s : SensorSample) (dt : ℚ) : ℚ :=
  command.k_q_p * (command.position - s.q)
    + command.k_q_i * (command.position - s.q) * dt
    + command.k_qd_p * (command.velocity - s.qd)
    + command.k_f_p * (command.effort - s.f)
    + command.ff_qd * s.qd + command.ff_qd_d * command.velocity
    + command.ff_f_d * command.effort + command.ff_const

/-- Limits resolution in the effort-joint loop (source lines 319-328):
configured limits when present, otherwise the header defaults. -/
def resolveLimits (jl : List (String × JointLimits)) (p : Params)
    (name : String) : JointLimits :=
  match alookup jl name with
  | some l => l
  | none => ⟨p.DEFAULT_MIN_POSITION, p.DEFAULT_MAX_POSITION, p.DEFAULT_MAX_EFFORT⟩

/-- Limits resolution in the position-joint loop (source lines 397-404).
The source assigns the defaults when the lookup fails but has no `else`
branch: when configured limits ARE found, the default-constructed
`JointLimits` local (all fields `0.0`) is used unchanged. -/
def positionBranchLimits (jl : List (String × JointLimits)) (p : Params)
    (name : String) : JointLimits :=
  match alookup jl name with
  | some _ => defaultConstructedLimits
  | none => ⟨p.DEFAULT_MIN_POSITION, p.DEFAULT_MAX_POSITION, p.DEFAULT_MAX_EFFORT⟩

/-- Stage 1, magnitude clamp (source line 331):
bound to `[-max_effort, max_effort]`. -/
def magnitudeClamp (limits : JointLimits) (v : ℚ) : ℚ :=
  clamp v (-limits.max_effort) limits.max_effort

/-- `err_beyond_bound = fmax(q - max_position, min_position - q)`
(source line 334). -/
def errBeyondBound (limits : JointLimits) (q : ℚ) : ℚ :=
  max (q - limits.max_position) (limits.min_position - q)

/-- Stage 2, limit-proximity ramp (source lines 334-342), with
`B = FORCE_CONTROL_ALLOWABLE_POSITION_ERR_BOUND`. -/
def rampStage (B : ℚ) (limits : JointLimits) (q v : ℚ) : ℚ :=
  let err := errBeyondBound limits q
  if err ≥ B then 0
  else if err ≥ 0 then v * ((B - err) / B)
  else v

/-- Stage 3, rate-of-change clamp (source lines 348-351), with
`MC = FORCE_CONTROL_MAX_CHANGE` and `f` the measured effort. -/
def rateClamp (MC f v : ℚ) : ℚ :=
  if v > f then min (f + MC) v else max (f - MC) v

/-- The fully clamped per-joint effort (`command_effort` after line 351):
raw law, then magnitude clamp, limit-proximity ramp, rate-of-change clamp. -/
def effortFinal (p : Params) (jl : List (String × JointLimits)) (dt : ℚ)
    (s : SensorSample) (command : joint_command) (name : String) : ℚ :=
  let limits := resolveLimits jl p name
  rateClamp p.FORCE_CONTROL_MAX_CHANGE s.f
    (rampStage p.FORCE_CONTROL_ALLOWABLE_POSITION_ERR_BOUND limits s.q
      (magnitudeClamp limits (rawEffort command s dt)))

/-- The hardware write of the effort loop (source lines 354-362): performed
only when `applyCommands` is set; the written value is the clamped effort
when `|command_effort| < 1000`, and `0.0` otherwise.  `none` means no
`setCommand` call occurs. -/
def effortWrite (applyCommands : Bool) (v : ℚ) : Option ℚ :=
  if applyCommands then (if |v| < 1000 then some v else some 0) else none

/-- The commanded target and hardware write of the position loop (source
lines 394-412): `position_to_go = command.position` clamped into the resolved
(buggy, see `positionBranchLimits`) limit range; written only when
`applyCommands` is set. -/
def positionToGo (p : Params) (jl : List (String × JointLimits))
    (command : joint_command) (name : String) : ℚ :=
  let limits := positionBranchLimits jl p name
  clamp command.position limits.min_position limits.max_position

/-- One row of a `bot_core::joint_state_t`-style snapshot:
joint name, position, velocity, effort slots. -/
structure SnapRow where
  name : String
  position : ℚ
  velocity : ℚ
  effort : ℚ
deriving DecidableEq, Repr

/-- Modelled from the spec: `effortJointHandles` and `positionJointHandles`
are declared in `LCM2ROSControl.hpp`, which is not among the provided
sources, so their iteration order is not visible in the code; the spec fixes
it as registration order.  A joint-handle map is embedded as a list of
(name, fresh sensor sample) pairs iterated in that order. -/
def HandleList : Type := List (String × SensorSample)

/-- Everything one control cycle produces: the four snapshot row lists
(`lcm_pose_msg` = CORE_ROBOT_STATE, `lcm_commanded_msg` =
VAL_COMMAND_FEEDBACK, `lcm_torque_msg` = VAL_COMMAND_FEEDBACK_TORQUE,
`lcm_state_msg` = EST_ROBOT_STATE), the `setCommand` hardware writes
performed, and the command table after the cycle. -/
structure CycleOutput where
  pose : List SnapRow
  commanded : List SnapRow
  torque : List (String × ℚ)
  state : List SnapRow
  writes : List (String × ℚ)
  commands : List (String × joint_command)
deriving DecidableEq, Repr

/-- Prepend a possible hardware write to the write log. -/
def consWrite (name : String) (w : Option ℚ) (rest : List (String × ℚ)) :
    List (String × ℚ) :=
  match w with
  | some v => (name, v) :: rest
  | none => rest

/-- The effort-controlled joint loop of `LCM2ROSControl::update`
(source lines 297-385), producing snapshot rows in iteration order.
The pose/state effort slot is `getEffort()` re-read after the command write;
hardware sensor state does not change within a cycle, so it equals `s.f`. -/
def effortLoop (p : Params) (jl : List (String × JointLimits))
    (applyCommands : Bool) (dt : ℚ) :
    List (String × SensorSample) → List (String × joint_command) → CycleOutput
  | [], cmds => ⟨[], [], [], [], [], cmds⟩
  | (name, s) :: rest, cmds =>
      let cc := getOrInsert cmds name
      let command := cc.1
      let command_effort := effortFinal p jl dt s command name
      let w := effortWrite applyCommands command_effort
      let out := effortLoop p jl applyCommands dt rest cc.2
      ⟨⟨name, s.q, s.qd, s.f⟩ :: out.pose,
       ⟨name, command.position, command.velocity, command.effort⟩ :: out.commanded,
       (name, command_effort) :: out.torque,
       ⟨name, s.q, s.qd, s.f⟩ :: out.state,
       consWrite name w out.writes,
       out.commands⟩

/-- The position-controlled joint loop of `LCM2ROSControl::update`
(source lines 387-431).  The effort slots of the pose/state rows keep their
preallocated `0.` (the loop never assigns them); the torque message is not
touched. -/
def positionLoop (p : Params) (jl : List (String × JointLimits))
    (applyCommands : Bool) :
    List (String × SensorSample) → List (String × joint_command) → CycleOutput
  | [], cmds => ⟨[], [], [], [], [], cmds⟩
  | (name, s) :: rest, cmds =>
      let cc := getOrInsert cmds name
      let command := cc.1
      let position_to_go := positionToGo p jl command name
      let w : Option ℚ := if applyCommands then some position_to_go else none
      let out := positionLoop p jl applyCommands rest cc.2
      ⟨⟨name, s.q, s.qd, 0⟩ :: out.pose,
       ⟨name, command.position, command.velocity, command.effort⟩ :: out.commanded,
       out.torque,
       ⟨name, s.q, s.qd, 0⟩ :: out.state,
       consWrite name w out.writes,
       out.commands⟩

/-- One control cycle (`LCM2ROSControl::update`, lines 232-433), after
message ingest: the effort loop runs first, then the position loop continues
filling the same preallocated messages at the next indices, so every snapshot
lists the effort-controlled joints first and the position-controlled joints
after them. -/
def update (p : Params) (jl : List (String × JointLimits))
    (applyCommands : Bool) (dt : ℚ)
    (effortJoints positionJoints : List (String × SensorSample))
    (cmds : List (String × joint_command)) : CycleOutput :=
  let eOut := effortLoop p jl applyCommands dt effortJoints cmds
  let pOut := positionLoop p jl applyCommands positionJoints eOut.commands
  ⟨eOut.pose ++ pOut.pose,
   eOut.commanded ++ pOut.commanded,
   eOut.torque ++ pOut.torque,
   eOut.state ++ pOut.state,
   eOut.writes ++ pOut.writes,
   pOut.commands⟩

/-- The four outbound messages as published: `none` means the message was
not sent this cycle. -/
structure PublishedMessages where
  core_robot_state : Option (List SnapRow)
  val_command_feedback : Option (List SnapRow)
  val_command_feedback_torque : Option (List (String × ℚ))
  est_robot_state : Option (List SnapRow)
deriving DecidableEq, Repr

/-- Modelled from the spec: the publish calls at the end of
`LCM2ROSControl::update` are not present in the provided source (the file
ends after the position loop, with the four assembled messages otherwise
unused).  Per the spec, the measured snapshot is gated by
`publish_core_robot_state`, the full-state snapshot by
`publish_est_robot_state`, and the echoed-command and torque snapshots are
published unconditionally. -/
def publishStep (publish_core_robot_state publish_est_robot_state : Bool)
    (out : CycleOutput) : PublishedMessages :=
  ⟨if publish_core_robot_state then some out.pose else none,
   some out.commanded,
   some out.torque,
   if publish_est_robot_state then some out.state else none⟩

/-- One entry of an inbound `bot_core::atlas_command_t` batch: the joint
name at index `i` of the parallel arrays together with the eleven values at
that index. -/
structure CommandBatchEntry where
  joint_name : String
  position : ℚ
  velocity : ℚ
  effort : ℚ
  k_q_p : ℚ
  k_q_i : ℚ
  k_qd_p : ℚ
  k_f_p : ℚ
  ff_qd : ℚ
  ff_qd_d : ℚ
  ff_f_d : ℚ
  ff_const : ℚ
deriving DecidableEq, Repr

/-- The eleven-field command record built from a batch entry, as assigned
field by field at source lines 457-467. -/
def commandOfEntry (e : CommandBatchEntry) : joint_command :=
  ⟨e.position, e.velocity, e.effort, e.k_q_p, e.k_q_i, e.k_qd_p, e.k_f_p,
   e.ff_qd, e.ff_qd_d, e.ff_f_d, e.ff_const⟩

/-- Processing of one batch entry (source lines 454-470): when the joint
name is found in `latest_commands`, all eleven fields of its entry are
overwritten; otherwise nothing happens. -/
def applyEntry (m : List (String × joint_command)) (e : CommandBatchEntry) :
    List (String × joint_command) :=
  match alookup m e.joint_name with
  | some _ => aset m e.joint_name (commandOfEntry e)
  | none => m

/-- `LCM2ROSControl_LCMHandler::jointCommandHandler` (source lines 448-472):
fold the entries of an inbound batch, in index order, over the command
table. -/
def jointCommandHandler (m : List (String × joint_command))
    (batch : List CommandBatchEntry) : List (String × joint_command) :=
  batch.foldl applyEntry m

/-! ## Helper lemmas -/

theorem alookup_aset_self {α : Type} (m : List (String × α)) (k : String)
    (v : α) (c : α) (h : alookup m k = some c) :
    alookup (aset m k v) k = some v := by
  induction m with
  | nil => simp [alookup] at h
  | cons kv rest ih =>
    obtain ⟨k0, v0⟩ := kv
    by_cases hk : k0 = k
    · simp [alookup, aset, hk]
    · simp only [alookup, aset, if_neg hk] at h ⊢
      exact ih h

theorem alookup_aset_ne {α : Type} (m : List (String × α)) (k k2 : String)
    (v : α) (h : k2 ≠ k) :
    alookup (aset m k v) k2 = alookup m k2 := by
  induction m with
  | nil => simp [aset, alookup]
  | cons kv rest ih =>
    obtain ⟨k0, v0⟩ := kv
    by_cases hk : k0 = k
    · subst hk
      have hne : ¬ k0 = k2 := fun hh => h hh.symm
      simp [aset, alookup, if_neg hne]
    · simp only [aset, if_neg hk, alookup]
      by_cases hk2 : k0 = k2
      · simp [hk2]
      · simp [if_neg hk2, ih]

theorem aset_keys {α : Type} (m : List (String × α)) (k : String) (v : α) :
    (aset m k v).map Prod.fst = m.map Prod.fst := by
  induction m with
  | nil => simp [aset]
  | cons kv rest ih =>
    obtain ⟨k0, v0⟩ := kv
    by_cases hk : k0 = k
    · simp [aset, hk]
    · simp [aset, if_neg hk, ih]

theorem applyEntry_keys (m : List (String × joint_command))
    (e : CommandBatchEntry) :
    (applyEntry m e).map Prod.fst = m.map Prod.fst := by
  unfold applyEntry
  cases alookup m e.joint_name with
  | none => rfl
  | some c => exact aset_keys m e.joint_name (commandOfEntry e)

theorem jointCommandHandler_keys (batch : List CommandBatchEntry) :
    ∀ m, (jointCommandHandler m batch).map Prod.fst = m.map Prod.fst := by
  induction batch with
  | nil => intro m; rfl
  | cons e rest ih =>
    intro m
    show (jointCommandHandler (applyEntry m e) rest).map Prod.fst = _
    rw [ih (applyEntry m e), applyEntry_keys]

theorem effortLoop_snapshots_eq (p : Params) (jl : List (String × JointLimits))
    (b b2 : Bool) (dt : ℚ) (js : List (String × SensorSample)) :
    ∀ cmds,
      (effortLoop p jl b dt js cmds).pose = (effortLoop p jl b2 dt js cmds).pose ∧
      (effortLoop p jl b dt js cmds).commanded = (effortLoop p jl b2 dt js cmds).commanded ∧
      (effortLoop p jl b dt js cmds).torque = (effortLoop p jl b2 dt js cmds).torque ∧
      (effortLoop p jl b dt js cmds).state = (effortLoop p jl b2 dt js cmds).state ∧
      (effortLoop p jl b dt js cmds).commands = (effortLoop p jl b2 dt js cmds).commands := by
  induction js with
  | nil => intro cmds; simp [effortLoop]
  | cons j rest ih =>
    intro cmds
    obtain ⟨name, s⟩ := j
    obtain ⟨h1, h2, h3, h4, h5⟩ := ih (getOrInsert cmds name).2
    simp only [effortLoop]
    exact ⟨by rw [h1], by rw [h2], by rw [h3], by rw [h4], h5⟩

theorem effortLoop_false_writes (p : Params) (jl : List (String × JointLimits))
    (dt : ℚ) (js : List (String × SensorSample)) :
    ∀ cmds, (effortLoop p jl false dt js cmds).writes = [] := by
  induction js with
  | nil => intro cmds; simp [effortLoop]
  | cons j rest ih =>
    intro cmds
    obtain ⟨name, s⟩ := j
    simp [effortLoop, effortWrite, consWrite, ih]

theorem positionLoop_snapshots_eq (p : Params) (jl : List (String × JointLimits))
    (b b2 : Bool) (js : List (String × SensorSample)) :
    ∀ cmds,
      (positionLoop p jl b js cmds).pose = (positionLoop p jl b2 js cmds).pose ∧
      (positionLoop p jl b js cmds).commanded = (positionLoop p jl b2 js cmds).commanded ∧
      (positionLoop p jl b js cmds).torque = (positionLoop p jl b2 js cmds).torque ∧
      (positionLoop p jl b js cmds).state = (positionLoop p jl b2 js cmds).state ∧
      (positionLoop p jl b js cmds).commands = (positionLoop p jl b2 js cmds).commands := by
  induction js with
  | nil => intro cmds; simp [positionLoop]
  | cons j rest ih =>
    intro cmds
    obtain ⟨name, s⟩ := j
    obtain ⟨h1, h2, h3, h4, h5⟩ := ih (getOrInsert cmds name).2
    simp only [positionLoop]
    exact ⟨by rw [h1], by rw [h2], by rw [h3], by rw [h4], h5⟩

theorem positionLoop_false_writes (p : Params) (jl : List (String × JointLimits))
    (js : List (String × SensorSample)) :
    ∀ cmds, (positionLoop p jl false js cmds).writes = [] := by
  induction js with
  | nil => intro cmds; simp [positionLoop]
  | cons j rest ih =>
    intro cmds
    obtain ⟨name, s⟩ := j
    simp [positionLoop, consWrite, ih]

theorem effortLoop_names (p : Params) (jl : List (String × JointLimits))
    (b : Bool) (dt : ℚ) (js : List (String × SensorSample)) :
    ∀ cmds,
      (effortLoop p jl b dt js cmds).pose.map SnapRow.name = js.map Prod.fst ∧
      (effortLoop p jl b dt js cmds).commanded.map SnapRow.name = js.map Prod.fst ∧
      (effortLoop p jl b dt js cmds).torque.map Prod.fst = js.map Prod.fst ∧
      (effortLoop p jl b dt js cmds).state.map SnapRow.name = js.map Prod.fst := by
  induction js with
  | nil => intro cmds; simp [effortLoop]
  | cons j rest ih =>
    intro cmds
    obtain ⟨name, s⟩ := j
    obtain ⟨h1, h2, h3, h4⟩ := ih (getOrInsert cmds name).2
    simp only [effortLoop, List.map]
    exact ⟨by rw [h1], by rw [h2], by rw [h3], by rw [h4]⟩

theorem positionLoop_names (p : Params) (jl : List (String × JointLimits))
    (b : Bool) (js : List (String × SensorSample)) :
    ∀ cmds,
      (positionLoop p jl b js cmds).pose.map SnapRow.name = js.map Prod.fst ∧
      (positionLoop p jl b js cmds).commanded.map SnapRow.name = js.map Prod.fst ∧
      (positionLoop p jl b js cmds).torque = [] ∧
      (positionLoop p jl b js cmds).state.map SnapRow.name = js.map Prod.fst := by
  induction js with
  | nil => intro cmds; simp [positionLoop]
  | cons j rest ih =>
    intro cmds
    obtain ⟨name, s⟩ := j
    obtain ⟨h1, h2, h3, h4⟩ := ih (getOrInsert cmds name).2
    simp only [positionLoop, List.map]
    exact ⟨by rw [h1], by rw [h2], h3, by rw [h4]⟩

theorem effortLoop_commands_frame (p : Params) (jl : List (String × JointLimits))
    (b : Bool) (dt : ℚ) (js : List (String × SensorSample)) :
    ∀ cmds, (∀ n ∈ js.map Prod.fst, (alookup cmds n).isSome = true) →
      (effortLoop p jl b dt js cmds).commands = cmds := by
  induction js with
  | nil => intro cmds _; simp [effortLoop]
  | cons j rest ih =>
    intro cmds h
    obtain ⟨name, s⟩ := j
    obtain ⟨c, hc⟩ := Option.isSome_iff_exists.mp (h name (by simp))
    have hg : getOrInsert cmds name = (c, cmds) := by simp [getOrInsert, hc]
    simp only [effortLoop, hg]
    exact ih cmds (fun n hn => h n (by simp [hn]))

theorem positionLoop_commands_frame (p : Params) (jl : List (String × JointLimits))
    (b : Bool) (js : List (String × SensorSample)) :
    ∀ cmds, (∀ n ∈ js.map Prod.fst, (alookup cmds n).isSome = true) →
      (positionLoop p jl b js cmds).commands = cmds := by
  induction js with
  | nil => intro cmds _; simp [positionLoop]
  | cons j rest ih =>
    intro cmds h
    obtain ⟨name, s⟩ := j
    obtain ⟨c, hc⟩ := Option.isSome_iff_exists.mp (h name (by simp))
    have hg : getOrInsert cmds name = (c, cmds) := by simp [getOrInsert, hc]
    simp only [positionLoop, hg]
    exact ih cmds (fun n hn => h n (by simp [hn]))

/-! ## Claim theorems -/

/-- C1 counterexample: in a concrete cycle whose fully clamped effort is
5020 (so `|value| >= 1000`), the commanded-torque snapshot reports 5020, not
0, while the hardware write applies 0; the claim that the reported value is
also replaced by 0 is false on the code. -/
theorem C1_sanity_override_counterexample :
    (1000 : ℚ) ≤
      |effortFinal ⟨-100, 100, 50, 1/10, 20⟩ [("j1", ⟨-1, 1, 10000⟩)] (1/500)
        ⟨0, 0, 5000⟩ ⟨0, 0, 0, 0, 0, 0, 0, 0, 0, 0, 6000⟩ "j1"| ∧
    (update ⟨-100, 100, 50, 1/10, 20⟩ [("j1", ⟨-1, 1, 10000⟩)] true (1/500)
        [("j1", ⟨0, 0, 5000⟩)] []
        [("j1", ⟨0, 0, 0, 0, 0, 0, 0, 0, 0, 0, 6000⟩)]).torque
      = [("j1", 5020)] ∧
    (update ⟨-100, 100, 50, 1/10, 20⟩ [("j1", ⟨-1, 1, 10000⟩)] true (1/500)
        [("j1", ⟨0, 0, 5000⟩)] []
        [("j1", ⟨0, 0, 0, 0, 0, 0, 0, 0, 0, 0, 6000⟩)]).writes
      = [("j1", 0)] ∧
    (5020 : ℚ) ≠ 0 := by
  have hv : effortFinal ⟨-100, 100, 50, 1/10, 20⟩ [("j1", ⟨-1, 1, 10000⟩)]
      (1/500) ⟨0, 0, 5000⟩ ⟨0, 0, 0, 0, 0, 0, 0, 0, 0, 0, 6000⟩ "j1" = 5020 := by
    norm_num [effortFinal, resolveLimits, alookup, rawEffort, magnitudeClamp,
      clamp, rampStage, errBeyondBound, rateClamp, max_def, min_def]
  have h52 : |(5020 : ℚ)| = 5020 := abs_of_nonneg (by norm_num)
  refine ⟨?_, ?_, ?_, by norm_num⟩
  · rw [hv, h52]; norm_num
  · norm_num [update, effortLoop, positionLoop, getOrInsert, alookup,
      effortFinal, resolveLimits, rawEffort, magnitudeClamp, clamp, rampStage,
      errBeyondBound, rateClamp, max_def, min_def]
  · norm_num [update, effortLoop, positionLoop, getOrInsert, alookup,
      effortWrite, consWrite, effortFinal, resolveLimits, rawEffort,
      magnitudeClamp, clamp, rampStage, errBeyondBound, rateClamp,
      max_def, min_def, h52]

/-- C1 amended: when the fully clamped effort `v` of an effort-controlled
joint has `|v| >= 1000`, the sanity override replaces the value by 0 only in
the hardware write (which happens only with `apply_commands` enabled); the
commanded-torque snapshot still reports `v` itself. -/
theorem C1_sanity_override_amended (p : Params) (jl : List (String × JointLimits))
    (dt : ℚ) (name : String) (s : SensorSample) (c : joint_command)
    (h : 1000 ≤ |effortFinal p jl dt s c name|) :
    (update p jl true dt [(name, s)] [] [(name, c)]).writes = [(name, 0)] ∧
    (update p jl true dt [(name, s)] [] [(name, c)]).torque =
      [(name, effortFinal p jl dt s c name)] ∧
    (update p jl false dt [(name, s)] [] [(name, c)]).writes = [] := by
  have hv : ¬ (|effortFinal p jl dt s c name| < 1000) := not_lt.mpr h
  refine ⟨?_, ?_, ?_⟩
  · simp [update, effortLoop, positionLoop, getOrInsert, alookup, effortWrite,
      consWrite, hv]
  · simp [update, effortLoop, positionLoop, getOrInsert, alookup]
  · simp [update, effortLoop, positionLoop, getOrInsert, alookup, effortWrite,
      consWrite]

/-- Witness for C1 amended at the concrete counterexample cycle. -/
theorem C1_sanity_override_amended_witness :
    (update ⟨-100, 100, 50, 1/10, 20⟩ [("j1", ⟨-1, 1, 10000⟩)] true (1/500)
        [("j1", ⟨0, 0, 5000⟩)] []
        [("j1", ⟨0, 0, 0, 0, 0, 0, 0, 0, 0, 0, 6000⟩)]).writes = [("j1", 0)] ∧
    (update ⟨-100, 100, 50, 1/10, 20⟩ [("j1", ⟨-1, 1, 10000⟩)] true (1/500)
        [("j1", ⟨0, 0, 5000⟩)] []
        [("j1", ⟨0, 0, 0, 0, 0, 0, 0, 0, 0, 0, 6000⟩)]).torque
      = [("j1", effortFinal ⟨-100, 100, 50, 1/10, 20⟩ [("j1", ⟨-1, 1, 10000⟩)]
            (1/500) ⟨0, 0, 5000⟩ ⟨0, 0, 0, 0, 0, 0, 0, 0, 0, 0, 6000⟩ "j1")] ∧
    (update ⟨-100, 100, 50, 1/10, 20⟩ [("j1", ⟨-1, 1, 10000⟩)] false (1/500)
        [("j1", ⟨0, 0, 5000⟩)] []
        [("j1", ⟨0, 0, 0, 0, 0, 0, 0, 0, 0, 0, 6000⟩)]).writes = [] :=
  C1_sanity_override_amended ⟨-100, 100, 50, 1/10, 20⟩ [("j1", ⟨-1, 1, 10000⟩)]
    (1/500) "j1" ⟨0, 0, 5000⟩ ⟨0, 0, 0, 0, 0, 0, 0, 0, 0, 0, 6000⟩
    (by
      have hv : effortFinal ⟨-100, 100, 50, 1/10, 20⟩ [("j1", ⟨-1, 1, 10000⟩)]
          (1/500) ⟨0, 0, 5000⟩ ⟨0, 0, 0, 0, 0, 0, 0, 0, 0, 0, 6000⟩ "j1"
          = 5020 := by
        norm_num [effortFinal, resolveLimits, alookup, rawEffort,
          magnitudeClamp, clamp, rampStage, errBeyondBound, rateClamp,
          max_def, min_def]
      rw [hv, abs_of_nonneg (by norm_num : (0:ℚ) ≤ 5020)]
      norm_num)

/-- C2: the position-joint branch never copies configured limits (the
`else` assignment present in the effort branch is missing), so a
position-controlled joint with configured limits `[-1, 2]` and target `1/2`
is clamped against the default-constructed zero limits and the hardware
receives 0, although the target lies inside the configured range. -/
theorem C2_position_limits_code_bug :
    (update ⟨-100, 100, 50, 1/10, 20⟩ [("p1", ⟨-1, 2, 50⟩)] true (1/500)
        [] [("p1", ⟨0, 0, 0⟩)]
        [("p1", ⟨1/2, 0, 0, 0, 0, 0, 0, 0, 0, 0, 0⟩)]).writes
      = [("p1", 0)] ∧
    positionToGo ⟨-100, 100, 50, 1/10, 20⟩ [("p1", ⟨-1, 2, 50⟩)]
        ⟨1/2, 0, 0, 0, 0, 0, 0, 0, 0, 0, 0⟩ "p1"
      ≠ clamp (1/2) (-1) 2 ∧
    clamp (1/2) (-1) 2 = (1/2 : ℚ) := by
  refine ⟨?_, ?_, ?_⟩
  · norm_num [update, effortLoop, positionLoop, getOrInsert, alookup,
      consWrite, positionToGo, positionBranchLimits, defaultConstructedLimits,
      clamp, max_def, min_def]
  · norm_num [positionToGo, positionBranchLimits, defaultConstructedLimits,
      alookup, clamp, max_def, min_def]
  · norm_num [clamp, max_def, min_def]

/-- C3: the echoed-command and commanded-torque snapshots are published in
every cycle regardless of the two gating flags; the measured snapshot is
published exactly when `publish_core_robot_state` is set and the full-state
snapshot exactly when `publish_est_robot_state` is set. -/
theorem C3_publication_gating (p : Params) (jl : List (String × JointLimits))
    (a : Bool) (dt : ℚ) (ej pj : List (String × SensorSample))
    (cmds : List (String × joint_command)) (b1 b2 : Bool) :
    (publishStep b1 b2 (update p jl a dt ej pj cmds)).val_command_feedback
        = some (update p jl a dt ej pj cmds).commanded ∧
    (publishStep b1 b2 (update p jl a dt ej pj cmds)).val_command_feedback_torque
        = some (update p jl a dt ej pj cmds).torque ∧
    (publishStep true b2 (update p jl a dt ej pj cmds)).core_robot_state
        = some (update p jl a dt ej pj cmds).pose ∧
    (publishStep false b2 (update p jl a dt ej pj cmds)).core_robot_state = none ∧
    (publishStep b1 true (update p jl a dt ej pj cmds)).est_robot_state
        = some (update p jl a dt ej pj cmds).state ∧
    (publishStep b1 false (update p jl a dt ej pj cmds)).est_robot_state = none := by
  refine ⟨rfl, rfl, rfl, rfl, rfl, rfl⟩

/-- C4: a dry-run cycle (`apply_commands = false`) produces the same four
snapshot messages as an applying cycle (`apply_commands = true`) on the same
sensor readings and command table, and performs no hardware write. -/
theorem C4_dry_run_fidelity (p : Params) (jl : List (String × JointLimits))
    (dt : ℚ) (ej pj : List (String × SensorSample))
    (cmds : List (String × joint_command)) :
    (update p jl false dt ej pj cmds).pose = (update p jl true dt ej pj cmds).pose ∧
    (update p jl false dt ej pj cmds).commanded
      = (update p jl true dt ej pj cmds).commanded ∧
    (update p jl false dt ej pj cmds).torque
      = (update p jl true dt ej pj cmds).torque ∧
    (update p jl false dt ej pj cmds).state
      = (update p jl true dt ej pj cmds).state ∧
    (update p jl false dt ej pj cmds).writes = [] := by
  obtain ⟨e1, e2, e3, e4, e5⟩ := effortLoop_snapshots_eq p jl false true dt ej cmds
  obtain ⟨p1, p2, p3, p4, p5⟩ := positionLoop_snapshots_eq p jl false true pj
    (effortLoop p jl false dt ej cmds).commands
  simp only [update]
  rw [← e5]
  refine ⟨by rw [e1, p1], by rw [e2, p2], by rw [e3, p3], by rw [e4, p4], ?_⟩
  rw [effortLoop_false_writes, positionLoop_false_writes]
  rfl

/-- C5: the raw (pre-clamp) effort computed by the source control law is
exactly the PID-plus-feed-forward formula stated in the specification. -/
theorem C5_raw_effort_formula (command : joint_command) (s : SensorSample)
    (dt : ℚ) : rawEffort command s dt = rawEffort_spec command s dt := by
  unfold rawEffort rawEffort_spec
  ring

/-- C6: in the limit-proximity ramp, a value passes unchanged when
`err < 0`, is scaled by exactly `(B - err) / B` when `0 ≤ err < B` (so the
factor is exactly 1 at `err = 0`), and becomes exactly 0 when `err ≥ B`. -/
theorem C6_limit_proximity_ramp (B : ℚ) (limits : JointLimits) (q v : ℚ)
    (hB : 0 < B) :
    (errBeyondBound limits q < 0 → rampStage B limits q v = v) ∧
    (0 ≤ errBeyondBound limits q → errBeyondBound limits q < B →
      rampStage B limits q v = v * ((B - errBeyondBound limits q) / B)) ∧
    (errBeyondBound limits q = 0 → rampStage B limits q v = v) ∧
    (B ≤ errBeyondBound limits q → rampStage B limits q v = 0) := by
  simp only [rampStage]
  refine ⟨?_, ?_, ?_, ?_⟩
  · intro h
    rw [if_neg (by push_neg; linarith), if_neg (by push_neg; linarith)]
  · intro h0 hlt
    rw [if_neg (by push_neg; linarith), if_pos (by linarith)]
  · intro h0
    rw [if_neg (by push_neg; linarith), if_pos (by linarith), h0]
    rw [sub_zero, div_self (ne_of_gt hB), mul_one]
  · intro h
    rw [if_pos (by linarith)]

/-- Witness for C6 at `B = 1/10`, limits `[-1, 1]`, `q = 21/20`
(so `err = 1/20`), `v = 8`. -/
theorem C6_limit_proximity_ramp_witness :
    rampStage (1/10) ⟨-1, 1, 50⟩ (21/20) 8
      = 8 * (((1/10) - errBeyondBound ⟨-1, 1, 50⟩ (21/20)) / (1/10)) :=
  (C6_limit_proximity_ramp (1/10) ⟨-1, 1, 50⟩ (21/20) 8 (by norm_num)).2.1
    (by norm_num [errBeyondBound, max_def]) (by norm_num [errBeyondBound, max_def])

/-- C7: the rate-of-change clamp returns `f + MC` for inputs above
`f + MC`, `f - MC` for inputs below `f - MC`, the input itself inside
`[f - MC, f + MC]`, and is idempotent. -/
theorem C7_rate_clamp (MC f v : ℚ) (hMC : 0 ≤ MC) :
    (f + MC < v → rateClamp MC f v = f + MC) ∧
    (v < f - MC → rateClamp MC f v = f - MC) ∧
    (f - MC ≤ v → v ≤ f + MC → rateClamp MC f v = v) ∧
    rateClamp MC f (rateClamp MC f v) = rateClamp MC f v := by
  unfold rateClamp
  refine ⟨?_, ?_, ?_, ?_⟩
  · intro h
    rw [if_pos (by linarith), min_eq_left (by linarith)]
  · intro h
    rw [if_neg (by push_neg; linarith), max_eq_left (by linarith)]
  · intro h1 h2
    by_cases hv : v > f
    · rw [if_pos hv, min_eq_right h2]
    · rw [if_neg hv, max_eq_right h1]
  · by_cases hv : v > f
    · rw [if_pos hv]
      by_cases hm : min (f + MC) v > f
      · rw [if_pos hm, min_eq_right (min_le_left _ _)]
      · rw [if_neg hm]
        push_neg at hm
        have h1 : min (f + MC) v = f :=
          le_antisymm hm (le_min (by linarith) (le_of_lt hv))
        rw [h1, max_eq_right (by linarith)]
    · rw [if_neg hv]
      push_neg at hv
      have h1 : ¬ max (f - MC) v > f := by
        push_neg
        exact max_le (by linarith) hv
      rw [if_neg h1, max_eq_right (le_max_left _ _)]

/-- Witness for C7 at `MC = 20`, `f = 2`, `v = 100 > f + MC`. -/
theorem C7_rate_clamp_witness : rateClamp 20 2 100 = 2 + 20 :=
  (C7_rate_clamp 20 2 100 (by norm_num)).1 (by norm_num)

/-- C8: a batch entry whose joint name is absent from the command table
leaves the table unchanged; an entry whose name is present overwrites all
eleven fields of exactly that entry; and a whole batch never adds or removes
keys (the handler is a total function: no fault is raised for unknown
names). -/
theorem C8_unknown_joint_isolation (m : List (String × joint_command))
    (e : CommandBatchEntry) (batch : List CommandBatchEntry) :
    (alookup m e.joint_name = none → applyEntry m e = m) ∧
    (∀ c, alookup m e.joint_name = some c →
      alookup (applyEntry m e) e.joint_name = some (commandOfEntry e) ∧
      ∀ k, k ≠ e.joint_name → alookup (applyEntry m e) k = alookup m k) ∧
    ((∀ e2 ∈ batch, alookup m e2.joint_name = none) →
      jointCommandHandler m batch = m) ∧
    (jointCommandHandler m batch).map Prod.fst = m.map Prod.fst := by
  refine ⟨?_, ?_, ?_, jointCommandHandler_keys batch m⟩
  · intro h
    unfold applyEntry
    rw [h]
  · intro c hc
    unfold applyEntry
    rw [hc]
    exact ⟨alookup_aset_self m e.joint_name _ c hc,
      fun k hk => alookup_aset_ne m e.joint_name k _ hk⟩
  · intro h
    induction batch with
    | nil => rfl
    | cons e2 rest ih =>
      show jointCommandHandler (applyEntry m e2) rest = m
      have he2 : applyEntry m e2 = m := by
        unfold applyEntry
        rw [h e2 (by simp)]
      rw [he2]
      exact ih (fun e3 h3 => h e3 (by simp [h3]))

/-- Witness for C8: an unknown name leaves a concrete table unchanged. -/
theorem C8_unknown_joint_isolation_witness :
    applyEntry [("a", zeroCommand)]
        ⟨"b", 1, 2, 3, 4, 5, 6, 7, 8, 9, 10, 11⟩ = [("a", zeroCommand)] :=
  (C8_unknown_joint_isolation [("a", zeroCommand)]
    ⟨"b", 1, 2, 3, 4, 5, 6, 7, 8, 9, 10, 11⟩ []).1 (by decide)

/-- C9: every snapshot of a cycle lists the effort-controlled joints first,
in registration order, then the position-controlled joints, in registration
order (the torque snapshot lists only the effort-controlled joints); two
cycles over the same registered joints produce snapshots with identical
name order. -/
theorem C9_snapshot_ordering (p p2 : Params)
    (jl jl2 : List (String × JointLimits)) (a a2 : Bool) (dt dt2 : ℚ)
    (ej pj ej2 pj2 : List (String × SensorSample))
    (cmds cmds2 : List (String × joint_command))
    (he : ej.map Prod.fst = ej2.map Prod.fst)
    (hp : pj.map Prod.fst = pj2.map Prod.fst) :
    (update p jl a dt ej pj cmds).pose.map SnapRow.name
        = ej.map Prod.fst ++ pj.map Prod.fst ∧
    (update p jl a dt ej pj cmds).commanded.map SnapRow.name
        = ej.map Prod.fst ++ pj.map Prod.fst ∧
    (update p jl a dt ej pj cmds).state.map SnapRow.name
        = ej.map Prod.fst ++ pj.map Prod.fst ∧
    (update p jl a dt ej pj cmds).torque.map Prod.fst = ej.map Prod.fst ∧
    (update p jl a dt ej pj cmds).pose.map SnapRow.name
        = (update p2 jl2 a2 dt2 ej2 pj2 cmds2).pose.map SnapRow.name ∧
    (update p jl a dt ej pj cmds).commanded.map SnapRow.name
        = (update p2 jl2 a2 dt2 ej2 pj2 cmds2).commanded.map SnapRow.name ∧
    (update p jl a dt ej pj cmds).state.map SnapRow.name
        = (update p2 jl2 a2 dt2 ej2 pj2 cmds2).state.map SnapRow.name ∧
    (update p jl a dt ej pj cmds).torque.map Prod.fst
        = (update p2 jl2 a2 dt2 ej2 pj2 cmds2).torque.map Prod.fst := by
  obtain ⟨e1, e2, e3, e4⟩ := effortLoop_names p jl a dt ej cmds
  obtain ⟨q1, q2, q3, q4⟩ := positionLoop_names p jl a pj
    (effortLoop p jl a dt ej cmds).commands
  obtain ⟨e1b, e2b, e3b, e4b⟩ := effortLoop_names p2 jl2 a2 dt2 ej2 cmds2
  obtain ⟨q1b, q2b, q3b, q4b⟩ := positionLoop_names p2 jl2 a2 pj2
    (effortLoop p2 jl2 a2 dt2 ej2 cmds2).commands
  simp only [update, List.map_append]
  rw [e1, e2, e3, e4, q1, q2, q3, q4, e1b, e2b, e3b, e4b, q1b, q2b, q3b, q4b,
    he, hp]
  simp

/-- Witness for C9 on two concrete cycles over the same joint names with
different sensors, commands, limits and flags. -/
theorem C9_snapshot_ordering_witness :
    (update ⟨-100, 100, 50, 1/10, 20⟩ [] true (1/500)
        [("e1", ⟨1, 2, 3⟩)] [("q1", ⟨4, 5, 6⟩)] []).pose.map SnapRow.name
      = ["e1"] ++ ["q1"] :=
  (C9_snapshot_ordering ⟨-100, 100, 50, 1/10, 20⟩ ⟨0, 0, 0, 1, 1⟩ [] [] true
    false (1/500) (1/250) [("e1", ⟨1, 2, 3⟩)] [("q1", ⟨4, 5, 6⟩)]
    [("e1", ⟨7, 8, 9⟩)] [("q1", ⟨0, 0, 0⟩)] [] [] (by decide) (by decide)).1

/-- C10: a control cycle whose registered joints all have a command-table
entry leaves the command table exactly as it was (the control law only
reads it; only command ingest mutates entries). -/
theorem C10_update_preserves_commands (p : Params)
    (jl : List (String × JointLimits)) (a : Bool) (dt : ℚ)
    (ej pj : List (String × SensorSample))
    (cmds : List (String × joint_command))
    (h : ∀ n ∈ ej.map Prod.fst ++ pj.map Prod.fst,
      (alookup cmds n).isSome = true) :
    (update p jl a dt ej pj cmds).commands = cmds := by
  have he : (effortLoop p jl a dt ej cmds).commands = cmds :=
    effortLoop_commands_frame p jl a dt ej cmds
      (fun n hn => h n (List.mem_append_left _ hn))
  show (positionLoop p jl a pj (effortLoop p jl a dt ej cmds).commands).commands = cmds
  rw [he]
  exact positionLoop_commands_frame p jl a pj cmds
    (fun n hn => h n (List.mem_append_right _ hn))

/-- Witness for C10 on a concrete two-joint cycle. -/
theorem C10_update_preserves_commands_witness :
    (update ⟨-100, 100, 50, 1/10, 20⟩ [] true (1/500)
        [("e1", ⟨1, 2, 3⟩)] [("q1", ⟨4, 5, 6⟩)]
        [("e1", zeroCommand), ("q1", zeroCommand)]).commands
      = [("e1", zeroCommand), ("q1", zeroCommand)] :=
  C10_update_preserves_commands ⟨-100, 100, 50, 1/10, 20⟩ [] true (1/500)
    [("e1", ⟨1, 2, 3⟩)] [("q1", ⟨4, 5, 6⟩)]
    [("e1", zeroCommand), ("q1", zeroCommand)] (by decide)

end Valkyrie
